import Mathlib

set_option maxHeartbeats 2000000
set_option maxRecDepth 16384

/-!
Verification of the natural-language query resolution and execution engine of
the `practice-mcp` repository (files `mcp_server.py`, `llm_mcp_server.py`,
`web_mcp_server.py`, `test_query.py`) against its specification.

The Python sources are shallowly embedded: strings are Lean `String`s
(processed through their `List Char` data where convenient), Python `dict`
rows become association lists, the sqlite3 connection becomes an explicit
state value, and the fallible external OpenAI call becomes an `Except`
parameter describing its outcome.
-/

/-! ## Basic string helpers modelling Python primitives (ASCII fragment) -/

/-- Python whitespace class `\s` over ASCII: space, tab, newline, carriage
return, vertical tab, form feed. -/
def pyIsSpaceC (c : Char) : Bool :=
  c = ' ' || c = '\t' || c = '\n' || c = '\r' || c = '\x0b' || c = '\x0c'

/-- Character class `[a-zA-Z0-9\s]` of the name-extraction regex in
`mcp_server.py` line 83 and `test_query.py` line 30. -/
def classC (c : Char) : Bool :=
  c.isAlpha || c.isDigit || pyIsSpaceC c

/-- Python `str.lower()` on the ASCII fragment, applied characterwise. -/
def pyLowerL (l : List Char) : List Char :=
  l.map Char.toLower

/-- Python `str.strip()`: drop whitespace from both ends. -/
def pyStripL (l : List Char) : List Char :=
  ((l.dropWhile pyIsSpaceC).reverse.dropWhile pyIsSpaceC).reverse

/-- Python `str.lower()` packaged on `String`. -/
def pyLower (s : String) : String :=
  ⟨pyLowerL s.data⟩

/-- Python `str.strip()` packaged on `String`. -/
def pyStrip (s : String) : String :=
  ⟨pyStripL s.data⟩

/-- Consume the exact literal `pre` from the front of `s`; `none` on mismatch. -/
def chop : List Char → List Char → Option (List Char)
  | [], s => some s
  | _ :: _, [] => none
  | p :: ps, c :: cs => if p = c then chop ps cs else none

/-- Python substring membership `needle in hay` on character lists. -/
def strContainsL (hay needle : List Char) : Bool :=
  match hay with
  | [] => needle.isEmpty
  | _ :: t => needle.isPrefixOf hay || strContainsL t needle

/-- Python substring membership `needle in hay` on `String`. -/
def strContains (hay needle : String) : Bool :=
  strContainsL hay.data needle.data

/-- Scan up to (and consume) the next double quote, returning the scanned
characters and the remainder. -/
def scanQ : List Char → Option (List Char × List Char)
  | [] => none
  | c :: cs =>
    if c = '"' then some ([], cs)
    else
      match scanQ cs with
      | some (a, r) => some (c :: a, r)
      | none => none

/-- Check that a character does not occur in the list. -/
def noChar (x : Char) : List Char → Bool
  | [] => true
  | c :: cs => if c = x then false else noChar x cs

/-- Boolean test that `p` is a literal prefix of `l`. -/
def startsWithL (p l : List Char) : Bool :=
  (chop p l).isSome

/-- Read a non-empty all-digit list as a natural number. -/
def digitsNat (cs : List Char) : Option Nat :=
  if cs.isEmpty then none
  else if cs.all Char.isDigit then
    some (cs.foldl (fun n c => n * 10 + (c.toNat - 48)) 0)
  else none

/-- Last element of a character list, `none` when empty. -/
def lastChar : List Char → Option Char
  | [] => none
  | [c] => some c
  | _ :: c :: cs => lastChar (c :: cs)

/-! ## The name-extraction regex of the rule-based resolver

`mcp_server.py` line 83 (and identically `test_query.py` line 30) runs
`re.search(r'company\s+(?:named\s+)?([a-zA-Z0-9\s]+)', question)` on the
lower-cased question and takes `match.group(1).strip()`.  The functions
below are a faithful backtracking matcher for this one pattern: the scan
tries every start position left to right; at a position where the literal
`company` matches, the greedy `\s+` is tried longest-first, the optional
`named\s+` group is preferred over its absence (its own `\s+` again tried
longest-first), and the capture takes the longest run of `[a-zA-Z0-9\s]`,
which must be non-empty. -/

/-- Inner `\s+` of the optional `named\s+` group: try consuming `j+1` down to
`1` whitespace characters, capturing the longest class run after them. -/
def innerWs : Nat → List Char → Option (List Char)
  | 0, _ => none
  | j + 1, r =>
    let cap := (r.drop (j + 1)).takeWhile classC
    if cap.isEmpty then innerWs j r else some cap

/-- Attempt the optional `named\s+` group at `rest`. -/
def namedTry (rest : List Char) : Option (List Char) :=
  match chop "named".data rest with
  | some r => innerWs ((r.takeWhile pyIsSpaceC).length) r
  | none => none

/-- Capture attempt at the position right after the outer `\s+`: first with
the optional `named\s+` group, then without it. -/
def capTry (rest : List Char) : Option (List Char) :=
  match namedTry rest with
  | some cap => some cap
  | none =>
    let cap := rest.takeWhile classC
    if cap.isEmpty then none else some cap

/-- Outer `\s+`: try consuming `n` down to `1` whitespace characters. -/
def outerWs : Nat → List Char → Option (List Char)
  | 0, _ => none
  | n + 1, after =>
    match capTry (after.drop (n + 1)) with
    | some cap => some cap
    | none => outerWs n after

/-- Left-to-right scan of `re.search` for the pattern
`company\s+(?:named\s+)?([a-zA-Z0-9\s]+)`: the value is the first
successful capture group. -/
def reSearchCompany : List Char → Option (List Char)
  | [] => none
  | c :: cs =>
    match chop "company".data (c :: cs) with
    | some after =>
      match outerWs ((after.takeWhile pyIsSpaceC).length) after with
      | some cap => some cap
      | none => reSearchCompany cs
    | none => reSearchCompany cs

/-- Captured group with the trailing `.strip()` of the source applied. -/
def extractL (q : List Char) : Option (List Char) :=
  match reSearchCompany q with
  | some cap => some (pyStripL cap)
  | none => none

/-- Name extraction as seen from the raw question: `parse_nl_query` first
lower-cases and strips the question, then runs the regex on it. -/
def extract_company_name (question : String) : Option String :=
  match extractL (pyStripL (pyLowerL question.data)) with
  | some nm => some ⟨nm⟩
  | none => none

/-! ## The rule-based resolvers -/

/-- Query template of the name-search branch, `mcp_server.py` line 86 and
`test_query.py` line 33: the extracted name is interpolated into the text
(the source passes no bound parameters to `conn.execute`). -/
def nameQuery (company_name : String) : String :=
  "SELECT * FROM companies WHERE \"CompanyName\" LIKE \"%" ++ company_name ++ "%\" LIMIT 5"

/-- Inner `if/elif` chain of the category branch, `mcp_server.py` lines
49-71: at most one filter term is collected; `none` means the chain fell
through to its generic-search `else` (line 74), which returns directly. -/
def categoryTerm (q : List Char) : Option String :=
  if strContainsL q "private".data && strContainsL q "limited".data then
    some "\"CompanyCategory\" LIKE \"%Private Limited Company%\""
  else if strContainsL q "charitable".data then
    some "\"CompanyCategory\" LIKE \"%Charitable%\""
  else if strContainsL q "community".data && strContainsL q "interest".data then
    some "\"CompanyCategory\" LIKE \"%Community Interest%\""
  else if strContainsL q "limited".data && strContainsL q "partnership".data then
    some "\"CompanyCategory\" LIKE \"%Limited Partnership%\""
  else if strContainsL q "overseas".data then
    some "\"CompanyCategory\" LIKE \"%Overseas%\""
  else if strContainsL q "dormant".data then
    some "\"Accounts.AccountCategory\" = \"DORMANT\""
  else if strContainsL q "exemption".data then
    some "\"Accounts.AccountCategory\" LIKE \"%EXEMPTION%\""
  else if strContainsL q "full".data && strContainsL q "accounts".data then
    some "\"Accounts.AccountCategory\" = \"FULL\""
  else if strContainsL q "no accounts".data || strContainsL q "no accounts filed".data then
    some "\"Accounts.AccountCategory\" = \"NO ACCOUNTS FILED\""
  else if strContainsL q "unaudited".data then
    some "\"Accounts.AccountCategory\" LIKE \"%UNAUDITED%\""
  else if strContainsL q "group".data then
    some "\"Accounts.AccountCategory\" = \"GROUP\""
  else none

/-- Category branch of `parse_nl_query`, `mcp_server.py` lines 46-80.  When
a term was collected, the one-element list is joined (a no-op) into the
`WHERE` clause; the dead `else` of line 79 is unreachable because
`category_terms` is non-empty on that path. -/
def categoryBranch (q : List Char) : String :=
  match categoryTerm q with
  | some term =>
    "SELECT \"CompanyName\", \"CompanyNumber\", \"CompanyCategory\", \"Accounts.AccountCategory\" FROM companies WHERE "
      ++ term ++ " LIMIT 10"
  | none =>
    "SELECT \"CompanyName\", \" CompanyNumber\", \"CompanyCategory\", \"Accounts.AccountCategory\" FROM companies WHERE \"CompanyCategory\" IS NOT NULL OR \"Accounts.AccountCategory\" IS NOT NULL LIMIT 10"

/-- Body of `parse_nl_query` after the question has been lower-cased and
stripped (`mcp_server.py` lines 29-91). -/
def parseCore (q : List Char) : String :=
  if strContainsL q " all".data && strContainsL q "companies".data then
    "SELECT \"CompanyName\", \"CompanyNumber\", \"CompanyStatus\" FROM companies LIMIT 10"
  else if strContainsL q "count".data && strContainsL q "companies".data then
    "SELECT COUNT(*) as total_companies FROM companies"
  else if strContainsL q "active".data && strContainsL q "companies".data then
    "SELECT \"CompanyName\", \"CompanyNumber\" FROM companies WHERE \"CompanyStatus\" = \"Active\" LIMIT 10"
  else if strContainsL q "dissolved".data && strContainsL q "companies".data then
    "SELECT \"CompanyName\", \"CompanyNumber\", \"DissolutionDate\" FROM companies WHERE \"CompanyStatus\" = \"Dissolved\" LIMIT 10"
  else if strContainsL q "micro".data && strContainsL q "entity".data then
    "SELECT \"CompanyName\", \"CompanyNumber\", \"Accounts.AccountCategory\" FROM companies WHERE \"Accounts.AccountCategory\" = \"MICRO ENTITY\" LIMIT 10"
  else if strContainsL q "small".data && (strContainsL q "companies".data || strContainsL q "business".data) then
    "SELECT \"CompanyName\", \"CompanyNumber\", \"Accounts.AccountCategory\" FROM companies WHERE \"Accounts.AccountCategory\" = \"SMALL\" LIMIT 10"
  else if strContainsL q "medium".data && (strContainsL q "companies".data || strContainsL q "business".data) then
    "SELECT \"CompanyName\", \"CompanyNumber\", \"Accounts.AccountCategory\" FROM companies WHERE \"Accounts.AccountCategory\" = \"MEDIUM\" LIMIT 10"
  else if strContainsL q "large".data && (strContainsL q "companies".data || strContainsL q "business".data) then
    "SELECT \"CompanyName\", \"CompanyNumber\", \"Accounts.AccountCategory\" FROM companies WHERE \"Accounts.AccountCategory\" = \"LARGE\" LIMIT 10"
  else if strContainsL q "category".data || strContainsL q "type".data then
    categoryBranch q
  else if strContainsL q "company".data && strContainsL q "name".data then
    match extractL q with
    | some nm => nameQuery ⟨nm⟩
    | none => "SELECT \"CompanyName\", \"CompanyNumber\" FROM companies LIMIT 10"
  else
    "SELECT \"CompanyName\", \"CompanyNumber\", \"CompanyStatus\" FROM companies LIMIT 10"

/-- Embedding of `parse_nl_query` (`mcp_server.py` lines 25-91), the
rule-based resolver of the FastAPI server: the question is lower-cased and
stripped, then matched against the ordered rule chain. -/
def parse_nl_query (question : String) : String :=
  parseCore (pyStripL (pyLowerL question.data))

/-- Embedding of `LLMMCPServer.fallback_to_sql` (`llm_mcp_server.py` lines
189-203): the fallback pattern matcher of the stdio MCP server.  The
question is lower-cased (not stripped). -/
def llm_fallback_to_sql (question : String) : String :=
  let q := pyLowerL question.data
  if strContainsL q "list".data && strContainsL q "companies".data then
    "SELECT \"CompanyName\", \" CompanyNumber\", \"CompanyStatus\" FROM companies LIMIT 10"
  else if strContainsL q "count".data && strContainsL q "companies".data then
    "SELECT COUNT(*) as total_companies FROM companies"
  else if strContainsL q "active".data && strContainsL q "companies".data then
    "SELECT \"CompanyName\", \" CompanyNumber\" FROM companies WHERE \"CompanyStatus\" = \"Active\" LIMIT 10"
  else if strContainsL q "micro".data && strContainsL q "entity".data then
    "SELECT \"CompanyName\", \" CompanyNumber\", \"Accounts.AccountCategory\" FROM companies WHERE \"Accounts.AccountCategory\" = \"MICRO ENTITY\" LIMIT 10"
  else
    "SELECT \"CompanyName\", \" CompanyNumber\", \"CompanyStatus\" FROM companies LIMIT 5"

/-- Embedding of `WebMCPServer.fallback_to_sql` (`web_mcp_server.py` lines
159-180): the fallback pattern matcher of the HTTP server. -/
def web_fallback_to_sql (question : String) : String :=
  let q := pyLowerL question.data
  if strContainsL q "list".data && strContainsL q "companies".data then
    "SELECT \"CompanyName\", \" CompanyNumber\", \"CompanyStatus\" FROM companies LIMIT 10"
  else if strContainsL q "count".data && strContainsL q "companies".data then
    "SELECT COUNT(*) as total_companies FROM companies"
  else if strContainsL q "active".data && strContainsL q "companies".data then
    "SELECT \"CompanyName\", \" CompanyNumber\" FROM companies WHERE \"CompanyStatus\" = \"Active\" LIMIT 10"
  else if strContainsL q "micro".data && strContainsL q "entity".data then
    "SELECT \"CompanyName\", \" CompanyNumber\", \"Accounts.AccountCategory\" FROM companies WHERE \"Accounts.AccountCategory\" = \"MICRO ENTITY\" LIMIT 10"
  else if strContainsL q "small".data && strContainsL q "companies".data then
    "SELECT \"CompanyName\", \" CompanyNumber\", \"Accounts.AccountCategory\" FROM companies WHERE \"Accounts.AccountCategory\" = \"SMALL\" LIMIT 10"
  else if strContainsL q "private".data && strContainsL q "limited".data then
    "SELECT \"CompanyName\", \" CompanyNumber\", \"CompanyCategory\" FROM companies WHERE \"CompanyCategory\" LIKE \"%Private Limited Company%\" LIMIT 10"
  else if strContainsL q "charitable".data then
    "SELECT \"CompanyName\", \" CompanyNumber\", \"CompanyCategory\" FROM companies WHERE \"CompanyCategory\" LIKE \"%Charitable%\" LIMIT 10"
  else if strContainsL q "dormant".data then
    "SELECT \"CompanyName\", \" CompanyNumber\", \"Accounts.AccountCategory\" FROM companies WHERE \"Accounts.AccountCategory\" = \"DORMANT\" LIMIT 10"
  else
    "SELECT \"CompanyName\", \" CompanyNumber\", \"CompanyStatus\" FROM companies LIMIT 5"

/-- Embedding of `parse_natural_language_query` (`test_query.py` lines
15-38): the test harness copy of the rule-based resolver. -/
def parse_natural_language_query (question : String) : String :=
  let q := pyStripL (pyLowerL question.data)
  if strContainsL q "list".data && strContainsL q "companies".data then
    "SELECT \"CompanyName\", \" CompanyNumber\", \"CompanyStatus\" FROM companies LIMIT 10"
  else if strContainsL q "count".data && strContainsL q "companies".data then
    "SELECT COUNT(*) as total_companies FROM companies"
  else if strContainsL q "active".data && strContainsL q "companies".data then
    "SELECT \"CompanyName\", \" CompanyNumber\" FROM companies WHERE \"CompanyStatus\" = \"Active\" LIMIT 10"
  else if strContainsL q "dissolved".data && strContainsL q "companies".data then
    "SELECT \"CompanyName\", \" CompanyNumber\", \"DissolutionDate\" FROM companies WHERE \"CompanyStatus\" = \"Dissolved\" LIMIT 10"
  else if strContainsL q "company".data && strContainsL q "name".data then
    match extractL q with
    | some nm => nameQuery ⟨nm⟩
    | none => "SELECT \"CompanyName\", \" CompanyNumber\" FROM companies LIMIT 10"
  else
    "SELECT \"CompanyName\", \" CompanyNumber\", \"CompanyStatus\" FROM companies LIMIT 10"

/-! ## The model-backed resolver and the resolution policy -/

/-- Normalisation `llm_to_sql` applies to the model's reply
(`llm_mcp_server.py` lines 175-183 and identically `web_mcp_server.py`
lines 145-153): strip, remove a leading code-fence marker and a trailing
one, strip again. -/
def normalize_llm_response (content : String) : String :=
  let s1 := pyStrip content
  let s2 := if startsWithL "```sql".data s1.data then ⟨s1.data.drop 6⟩ else s1
  let s3 :=
    if startsWithL "```".data.reverse s2.data.reverse then
      ⟨s2.data.take (s2.data.length - 3)⟩
    else s2
  pyStrip s3

/-- Embedding of `LLMMCPServer.llm_to_sql` (`llm_mcp_server.py` lines
142-187).  The external OpenAI chat call is modelled by its outcome
`response`: `Except.error` stands for any raised exception (network error,
timeout, API failure), `Except.ok content` for a reply with message content
`content`.  On an exception the source returns
`self.fallback_to_sql(question)`; otherwise it returns the normalised
content unconditionally — an empty normalised reply is returned as the
empty query, not treated as a failure. -/
def llm_to_sql (response : Except Unit String) (question : String) : String :=
  match response with
  | .error _ => llm_fallback_to_sql question
  | .ok content => normalize_llm_response content

/-- Python truthiness of `os.getenv` results: `None` and the empty string
are falsy. -/
def truthyStr : Option String → Bool
  | none => false
  | some s => !s.isEmpty

/-- Credential check of `LLMMCPServer.__init__` (`llm_mcp_server.py` lines
33-45) and `WebMCPServer.__init__` (`web_mcp_server.py` lines 35-47):
`llm_available` is set iff the OpenAI package imported and the API-key
configuration value is present and non-empty; no branch raises. -/
def llm_available (has_openai : Bool) (api_key : Option String) : Bool :=
  has_openai && truthyStr api_key

/-- Resolver choice in `ask_about_companies` (`llm_mcp_server.py` lines
115-118) and `query_companies` (`web_mcp_server.py` lines 85-88): the model
path is used iff `llm_available`, otherwise the rule-based fallback. -/
def choose_sql (avail : Bool) (response : Except Unit String) (question : String) : String :=
  if avail then llm_to_sql response question else llm_fallback_to_sql question

/-! ## The schema catalog -/

/-- Schema dictionary returned by `get_database_schema`
(`llm_mcp_server.py` lines 54-82, identically `web_mcp_server.py` lines
52-80). -/
structure SchemaInfo where
  table : String
  columns : List (String × String)
  sample_data : List (List (String × Option String))
deriving DecidableEq, Repr

/-- Embedding of `get_database_schema`.  The storage interaction (opening
the database, `PRAGMA table_info(companies)`, the sample `SELECT`) is
modelled by its outcome `storage`: `Except.error` for any raised exception
(database unreachable, table missing), `Except.ok` for the read column and
sample data.  The source wraps everything in `try/except` and on error
returns a degraded dictionary with empty columns and samples — it never
re-raises. -/
def get_database_schema
    (storage : Except String (List (String × String) × List (List (String × Option String)))) :
    SchemaInfo :=
  match storage with
  | .ok p => ⟨"companies", p.1, p.2⟩
  | .error _ => ⟨"companies", [], []⟩

/-! ## The HTML result presenter of the form channel -/

/-- Cell lookup `row[col]` used by the form renderer; the row dictionaries
are built from `zip(columns, row)` so the column is always present. -/
def cellLookup (row : List (String × String)) (c : String) : String :=
  match row.find? (fun p => p.1 == c) with
  | some p => p.2
  | none => ""

/-- Header cell fragment of `ask_submit` (`mcp_server.py` line 223); the
column name is interpolated verbatim. -/
def thCell (c : String) : String :=
  "<th style=\"border:1px solid #ccc; padding:6px;\">" ++ c ++ "</th>"

/-- Data cell fragment of `ask_submit` (`mcp_server.py` line 225); the cell
value is interpolated verbatim, with no escaping. -/
def tdCell (v : String) : String :=
  "<td style=\"border:1px solid #ccc; padding:6px;\">" ++ v ++ "</td>"

/-- Concatenation of a list of strings (Python `''.join`). -/
def strConcat : List String → String
  | [] => ""
  | s :: ss => s ++ strConcat ss

/-- Table row fragment of `ask_submit` (`mcp_server.py` line 225). -/
def rowHtml (columns : List String) (row : List (String × String)) : String :=
  "<tr>" ++ strConcat (columns.map (fun c => tdCell (cellLookup row c))) ++ "</tr>"

/-- Embedding of the `results_html` construction of `ask_submit`
(`mcp_server.py` lines 218-228): error div, else a table when there are
rows, else the explicit no-results div. -/
def results_table_html (error : Option String) (columns : List String)
    (results : List (List (String × String))) : String :=
  match error with
  | some e => "<div style=\"color: red; margin: 16px 0;\">Error: " ++ e ++ "</div>"
  | none =>
    if results.isEmpty then "<div style=\"margin: 16px 0;\">No results found.</div>"
    else
      "<table style=\"width:100%; border-collapse:collapse; margin-top:24px;\">"
        ++ "<tr>" ++ strConcat (columns.map thCell) ++ "</tr>"
        ++ strConcat (results.map (rowHtml columns))
        ++ "</table>"

/-! ## A structured view of the emitted SQL templates

Every query the rule-based resolvers emit belongs to a small grammar:
`SELECT <cols|*> FROM companies [WHERE <cond>] [LIMIT n]` or
`SELECT COUNT(*) as <alias> FROM companies`, where a condition is an
equality, a `LIKE "%sub%"` substring filter, or the two-column
`IS NOT NULL OR` test of the generic category search.  `parseMini` is an
executable parser for exactly this grammar, and `runMini` evaluates the
parsed query against a table, following SQLite's semantics on these forms
(a double-quoted right-hand side that matches no column is the string
literal it spells, `LIKE` is case-insensitive on ASCII, `= NULL` is
false). -/

/-- Table row: column name to value, `none` for SQL NULL. -/
abbrev DbRow := List (String × Option String)

/-- The single `companies` table: column order plus rows. -/
structure Table where
  cols : List String
  rows : List DbRow
deriving DecidableEq, Repr

/-- Condition forms occurring in the emitted templates. -/
inductive Cond where
  | eqC (col val : String)
  | likeC (col sub : String)
  | notNullOr (c1 c2 : String)
deriving DecidableEq, Repr

/-- Statement forms occurring in the emitted templates; `select` with an
empty column list is `SELECT *`. -/
inductive MiniSql where
  | select (cols : List String) (cond : Option Cond) (lim : Option Nat)
  | countAll (al : String)
deriving DecidableEq, Repr

/-- Result of executing a query: ordered column names and rows. -/
structure QueryResult where
  columns : List String
  rows : List DbRow
deriving DecidableEq, Repr

/-- Value of column `c` in row `r` (`none` for NULL or absent column). -/
def lookupCol (r : DbRow) (c : String) : Option String :=
  match r.find? (fun p => p.1 == c) with
  | some p => p.2
  | none => none

/-- SQLite `LIKE "%sub%"`: case-insensitive substring containment. -/
def likeMatch (v sub : String) : Bool :=
  strContainsL (pyLowerL v.data) (pyLowerL sub.data)

/-- Evaluate a condition on a row; comparison with NULL is false. -/
def evalCond (r : DbRow) : Cond → Bool
  | .eqC c v => lookupCol r c == some v
  | .likeC c sub =>
    match lookupCol r c with
    | some s => likeMatch s sub
    | none => false
  | .notNullOr c1 c2 => (lookupCol r c1).isSome || (lookupCol r c2).isSome

/-- Project a row onto the named columns. -/
def projectRow (cols : List String) (r : DbRow) : DbRow :=
  cols.map (fun c => (c, lookupCol r c))

/-- Execute a parsed query against the table. -/
def runMini : MiniSql → Table → QueryResult
  | .countAll a, t => ⟨[a], [[(a, some (toString t.rows.length))]]⟩
  | .select cols cond lim, t =>
    let rs :=
      match cond with
      | none => t.rows
      | some c => t.rows.filter (fun r => evalCond r c)
    let rs :=
      match lim with
      | none => rs
      | some n => rs.take n
    match cols with
    | [] => ⟨t.cols, rs⟩
    | cs => ⟨cs, rs.map (projectRow cs)⟩

/-- Continuation after a parsed condition: end of statement or a `LIMIT`. -/
def afterCond (c : Cond) (r2 : List Char) : Option (Option Cond × Option Nat) :=
  match r2 with
  | [] => some (some c, none)
  | _ =>
    match chop " LIMIT ".data r2 with
    | some r3 =>
      match digitsNat r3 with
      | some n => some (some c, some n)
      | none => none
    | none => none

/-- Parse the `"%sub%"` value of a `LIKE` condition (opening quote already
consumed): scan to the closing quote, require a trailing `%`. -/
def parseLikeVal (col : List Char) (r3 : List Char) : Option (Cond × List Char) :=
  (scanQ r3).bind fun pr =>
    if lastChar pr.1 = some '%' then some (.likeC ⟨col⟩ ⟨pr.1.dropLast⟩, pr.2) else none

/-- Parse the operator part of a condition, after its first quoted column. -/
def parseCondOps (col : List Char) (r2 : List Char) : Option (Cond × List Char) :=
  match chop " = \"".data r2 with
  | some r3 =>
    match scanQ r3 with
    | some (v, r4) => some (.eqC ⟨col⟩ ⟨v⟩, r4)
    | none => none
  | none =>
    match chop " LIKE \"%".data r2 with
    | some r3 => parseLikeVal col r3
    | none =>
      match chop " IS NOT NULL OR \"".data r2 with
      | some r3 =>
        match scanQ r3 with
        | some (c2, r4) =>
          match chop " IS NOT NULL".data r4 with
          | some r5 => some (.notNullOr ⟨col⟩ ⟨c2⟩, r5)
          | none => none
        | none => none
      | none => none

/-- Parse a condition: quoted column then operator part. -/
def parseCond (s : List Char) : Option (Cond × List Char) :=
  match s with
  | '"' :: r =>
    match scanQ r with
    | some (col, r2) => parseCondOps col r2
    | none => none
  | _ => none

/-- Continuation from a parsed condition to the tail result. -/
def condK : Option (Cond × List Char) → Option (Option Cond × Option Nat)
  | some (c, r2) => afterCond c r2
  | none => none

/-- Parse the statement tail after `FROM companies`: nothing, a `WHERE`
condition with optional `LIMIT`, or a bare `LIMIT`. -/
def parseTail (s : List Char) : Option (Option Cond × Option Nat) :=
  match s with
  | [] => some (none, none)
  | _ =>
    match chop " WHERE ".data s with
    | some r => condK (parseCond r)
    | none =>
      match chop " LIMIT ".data s with
      | some r =>
        match digitsNat r with
        | some n => some (none, some n)
        | none => none
      | none => none

/-- Build a star-select from a parsed tail. -/
def mkStar (p : Option Cond × Option Nat) : MiniSql :=
  .select [] p.1 p.2

/-- Parse a `COUNT(*) as alias` statement body. -/
def parseCount (r : List Char) : Option MiniSql :=
  let al := r.takeWhile (fun c => c ≠ ' ')
  match chop " FROM companies".data (r.drop al.length) with
  | some [] => some (.countAll ⟨al⟩)
  | _ => none

/-- Parse a comma-separated list of double-quoted column names;
`fuel` bounds the recursion by the input length. -/
def parseColsF : Nat → List Char → Option (List String × List Char)
  | 0, _ => none
  | fuel + 1, s =>
    match s with
    | '"' :: r =>
      match scanQ r with
      | some (col, r2) =>
        match chop ", ".data r2 with
        | some r3 =>
          match parseColsF fuel r3 with
          | some (cs, rest) => some (⟨col⟩ :: cs, rest)
          | none => none
        | none => some ([⟨col⟩], r2)
      | none => none
    | _ => none

/-- Parse the statement body after `SELECT `. -/
def parseAfterSelect (r : List Char) : Option MiniSql :=
  match chop "* FROM companies".data r with
  | some r2 => (parseTail r2).map mkStar
  | none =>
    match chop "COUNT(*) as ".data r with
    | some r2 => parseCount r2
    | none =>
      match parseColsF r.length r with
      | some (cols, r2) =>
        match chop " FROM companies".data r2 with
        | some r3 => (parseTail r3).map (fun p => .select cols p.1 p.2)
        | none => none
      | none => none

/-- Parse a template statement on character lists. -/
def parseMiniL (cs : List Char) : Option MiniSql :=
  match chop "SELECT ".data cs with
  | some r => parseAfterSelect r
  | none => none

/-- Parse a template statement. -/
def parseMini (s : String) : Option MiniSql :=
  parseMiniL s.data

/-- Execute a template statement string against a table. -/
def execString (s : String) (t : Table) : Option QueryResult :=
  (parseMini s).map (fun m => runMini m t)

/-! ## The executor's connection model

`query_db` (`mcp_server.py` lines 102-127), `query_companies`
(`web_mcp_server.py` lines 90-111) and `ask_about_companies`
(`llm_mcp_server.py` lines 120-140) all run the same execute step: open a
`sqlite3` connection, `conn.execute(sql_query)` with the statement text and
no bound parameters, read `cursor.description` for the column names, fetch
the rows, and wrap any raised exception into a surfaced error carrying the
message.  No inspection of the statement's leading verb happens anywhere.

The connection is modelled by explicit state: `Db` holds the durable
`companies` table (`none` once dropped).  `sqlite3` semantics relevant
here: a `SELECT` returns a cursor whose `description` lists the columns; a
DML statement (`INSERT`/`UPDATE`/`DELETE`) executes inside the implicit
transaction the Python `sqlite3` module opens, which these handlers never
commit, so no durable change survives the request — the durable state is
unchanged; a DDL statement such as `DROP TABLE` runs outside that implicit
transaction, in SQLite autocommit mode, so the drop is durable
immediately; for every non-`SELECT` statement `cursor.description` is
`None`, so the subsequent list comprehension over it raises `TypeError`. -/

/-- Durable database state: the `companies` table, `none` once dropped. -/
structure Db where
  companies : Option Table
deriving DecidableEq, Repr

/-- Cursor after `conn.execute`: `description` and fetched rows. -/
structure Cursor where
  description : Option (List String)
  crows : List DbRow
deriving DecidableEq, Repr

/-- Leading verb of a statement, lower-cased. -/
def firstWord (sql : String) : String :=
  ⟨((pyStripL sql.data).takeWhile (fun c => !pyIsSpaceC c)).map Char.toLower⟩

/-- Write verbs named by the specification's write-rejection property. -/
def isWriteVerb (w : String) : Bool :=
  w == "insert" || w == "update" || w == "delete" || w == "drop"

/-- Check whether a `DROP TABLE` statement targets the `companies` table. -/
def dropTargetsCompanies (sql : String) : Bool :=
  match chop "drop table ".data (pyStripL (sql.data.map Char.toLower)) with
  | some r => pyStripL r = "companies".data
  | none => false

/-- Model of `conn.execute` on the durable state (see the section comment
for the transaction semantics). -/
def sqliteExec (sql : String) (db : Db) : Except String Cursor × Db :=
  let v := firstWord sql
  if v == "select" then
    match parseMini sql, db.companies with
    | some m, some t => (.ok ⟨some (runMini m t).columns, (runMini m t).rows⟩, db)
    | some _, none => (.error "no such table: companies", db)
    | none, _ => (.error "malformed statement", db)
  else if v == "insert" || v == "update" || v == "delete" then
    match db.companies with
    | some _ => (.ok ⟨none, []⟩, db)
    | none => (.error "no such table: companies", db)
  else if v == "drop" then
    if dropTargetsCompanies sql then
      match db.companies with
      | some _ => (.ok ⟨none, []⟩, { companies := none })
      | none => (.error "no such table: companies", db)
    else (.error "no such table", db)
  else (.error "unrecognized statement", db)

/-- The shared execute step: run the statement, then read the column names
from `cursor.description` — which raises `TypeError` for a `None`
description — and package rows; any exception becomes the surfaced
`Query error` of the handlers' `except` blocks. -/
def queryDbExec (sql : String) (db : Db) : Except String QueryResult × Db :=
  match sqliteExec sql db with
  | (.error e, db') => (.error ("Query error: " ++ e), db')
  | (.ok cur, db') =>
    match cur.description with
    | none => (.error "Query error: 'NoneType' object is not iterable", db')
    | some cols => (.ok ⟨cols, cur.crows⟩, db')

/-- Sample database state used by concrete witnesses. -/
def dbSample : Db :=
  ⟨some ⟨["CompanyName", "CompanyNumber", "CompanyStatus"],
    [[("CompanyName", some "ACME LIMITED"), ("CompanyNumber", some "00000001"),
      ("CompanyStatus", some "Active")]]⟩⟩

/-! ## Helper lemmas -/

theorem chop_self : ∀ (pre r : List Char), chop pre (pre ++ r) = some r
  | [], _ => rfl
  | p :: ps, r => by simp [chop, chop_self ps r]

theorem scanQ_append {xs : List Char} (r : List Char) (h : ('"' : Char) ∉ xs) :
    scanQ (xs ++ '"' :: r) = some (xs, r) := by
  induction xs with
  | nil => simp [scanQ]
  | cons x t ih =>
    have hx : x ≠ '"' := fun he => h (he ▸ List.mem_cons_self x t)
    have ht : ('"' : Char) ∉ t := fun hm => h (List.mem_cons_of_mem x hm)
    simp [scanQ, hx, ih ht]

theorem lastChar_concat : ∀ (l : List Char) (a : Char), lastChar (l ++ [a]) = some a
  | [], _ => rfl
  | [_], _ => rfl
  | _ :: y :: ys, a => lastChar_concat (y :: ys) a

theorem noChar_append (x : Char) : ∀ (a b : List Char),
    noChar x (a ++ b) = (noChar x a && noChar x b)
  | [], _ => rfl
  | c :: cs, b => by
    by_cases hc : c = x <;> simp [noChar, hc, noChar_append x cs b]

theorem noChar_of_class {x : Char} (hx : classC x = false) :
    ∀ {l : List Char}, (∀ c ∈ l, classC c = true) → noChar x l = true
  | [], _ => rfl
  | c :: cs, h => by
    have hc : c ≠ x := fun he => by
      have := h c (List.mem_cons_self c cs)
      rw [he, hx] at this
      exact Bool.false_ne_true this
    simp only [noChar, if_neg hc]
    exact noChar_of_class hx (fun d hd => h d (List.mem_cons_of_mem c hd))

theorem startsWithL_self (p r : List Char) : startsWithL p (p ++ r) = true := by
  simp [startsWithL, chop_self]

theorem mem_pyStripL {c : Char} {l : List Char} (h : c ∈ pyStripL l) : c ∈ l := by
  unfold pyStripL at h
  rw [List.mem_reverse] at h
  have h1 := (List.dropWhile_sublist _).mem h
  rw [List.mem_reverse] at h1
  exact (List.dropWhile_sublist _).mem h1

/-! ### Every capture of the name regex is made of class characters -/

theorem innerWs_class : ∀ (j : Nat) (r cap : List Char), innerWs j r = some cap →
    ∀ c ∈ cap, classC c = true
  | 0, _, _, h => by simp [innerWs] at h
  | j + 1, r, cap, h => by
    rw [innerWs] at h
    by_cases he : ((r.drop (j + 1)).takeWhile classC).isEmpty
    · rw [if_pos he] at h
      exact innerWs_class j r cap h
    · rw [if_neg he] at h
      cases h
      exact fun c hc => List.mem_takeWhile_imp hc

theorem namedTry_class {rest cap : List Char} (h : namedTry rest = some cap) :
    ∀ c ∈ cap, classC c = true := by
  unfold namedTry at h
  cases hc : chop "named".data rest with
  | none => rw [hc] at h; exact absurd h (by simp)
  | some r => rw [hc] at h; exact innerWs_class _ r cap h

theorem capTry_class {rest cap : List Char} (h : capTry rest = some cap) :
    ∀ c ∈ cap, classC c = true := by
  unfold capTry at h
  cases hn : namedTry rest with
  | some c => rw [hn] at h; cases h; exact namedTry_class hn
  | none =>
    rw [hn] at h
    by_cases he : (rest.takeWhile classC).isEmpty
    · rw [if_pos he] at h; exact absurd h (by simp)
    · rw [if_neg he] at h
      cases h
      exact fun c hc => List.mem_takeWhile_imp hc

theorem outerWs_class : ∀ (n : Nat) (after cap : List Char), outerWs n after = some cap →
    ∀ c ∈ cap, classC c = true
  | 0, _, _, h => by simp [outerWs] at h
  | n + 1, after, cap, h => by
    rw [outerWs] at h
    cases hc : capTry (after.drop (n + 1)) with
    | some c => rw [hc] at h; cases h; exact capTry_class hc
    | none => rw [hc] at h; exact outerWs_class n after cap h

theorem reSearchCompany_class : ∀ (q cap : List Char), reSearchCompany q = some cap →
    ∀ c ∈ cap, classC c = true
  | [], _, h => by simp [reSearchCompany] at h
  | c :: cs, cap, h => by
    rw [reSearchCompany] at h
    split at h
    next after hc =>
      split at h
      next c2 ho => cases h; exact outerWs_class _ after _ ho
      next ho => exact reSearchCompany_class cs cap h
    next hc => exact reSearchCompany_class cs cap h

theorem extractL_class {q nm : List Char} (h : extractL q = some nm) :
    ∀ c ∈ nm, classC c = true := by
  unfold extractL at h
  cases hr : reSearchCompany q with
  | none => rw [hr] at h; exact absurd h (by simp)
  | some cap =>
    rw [hr] at h
    cases h
    exact fun c hc => reSearchCompany_class q cap hr c (mem_pyStripL hc)

theorem class_no_quote {nm : List Char} (h : ∀ c ∈ nm, classC c = true) :
    ('"' : Char) ∉ nm := by
  intro hm
  have := h _ hm
  exact absurd this (by decide)

/-! ### Symbolic parse of the name-search template -/

theorem parseLikeVal_name (nm : List Char) (hq : ('"' : Char) ∉ nm) :
    parseLikeVal ("CompanyName" : String).data (nm ++ ("%\" LIMIT 5" : String).data)
      = some (Cond.likeC "CompanyName" ⟨nm⟩, (" LIMIT 5" : String).data) := by
  have e : ("%\" LIMIT 5" : String).data = ['%'] ++ ('"' :: (" LIMIT 5" : String).data) := by
    decide
  have hq2 : ('"' : Char) ∉ nm ++ ['%'] := by
    intro hm
    rcases List.mem_append.mp hm with hm | hm
    · exact hq hm
    · simp at hm
  rw [e, ← List.append_assoc]
  unfold parseLikeVal
  rw [scanQ_append _ hq2]
  simp [lastChar_concat, List.dropLast_concat]

theorem parseMini_nameQuery (nm : List Char) (hq : ('"' : Char) ∉ nm) :
    parseMini (nameQuery ⟨nm⟩)
      = some (MiniSql.select [] (some (Cond.likeC "CompanyName" ⟨nm⟩)) (some 5)) := by
  have hdata : (nameQuery ⟨nm⟩).data
      = ("SELECT * FROM companies WHERE \"CompanyName\" LIKE \"%" : String).data
          ++ (nm ++ ("%\" LIMIT 5" : String).data) := by
    simp [nameQuery, String.data_append]
  have hred : parseMini (nameQuery ⟨nm⟩)
      = Option.map mkStar (condK (parseLikeVal ("CompanyName" : String).data
          (nm ++ ("%\" LIMIT 5" : String).data))) := by
    rw [show parseMini (nameQuery ⟨nm⟩) = parseMiniL (nameQuery ⟨nm⟩).data from rfl, hdata]
    rfl
  rw [hred, parseLikeVal_name nm hq]
  rfl

/-! ### Row-count bounds of the executor -/

theorem runMini_count_len (a : String) (t : Table) :
    (runMini (.countAll a) t).rows.length = 1 := rfl

theorem runMini_select_le (cols : List String) (cond : Option Cond) (n : Nat) (t : Table) :
    (runMini (.select cols cond (some n)) t).rows.length ≤ n := by
  cases cols <;> cases cond <;> simp [runMini]

/-- Decidable core of the row-cap property: the statement parses as a count
aggregate or as a select with an explicit `LIMIT` of at most 10. -/
def capSyntax (s : String) : Bool :=
  match parseMini s with
  | some (.countAll _) => true
  | some (.select _ _ (some n)) => decide (n ≤ 10)
  | _ => false

/-- Row-cap property of an emitted statement: it is a count query whose
execution returns exactly one aggregate row, or a select carrying a limit
of at most 10 whose execution returns at most 10 rows. -/
def cappedOrCount (s : String) : Prop :=
  (∃ a, parseMini s = some (.countAll a) ∧
    ∀ t, ∃ r, execString s t = some r ∧ r.rows.length = 1) ∨
  (∃ cols cond n, parseMini s = some (.select cols cond (some n)) ∧ n ≤ 10 ∧
    ∀ t, ∃ r, execString s t = some r ∧ r.rows.length ≤ 10)

theorem capSyntax_sound {s : String} (h : capSyntax s = true) : cappedOrCount s := by
  unfold capSyntax at h
  cases hp : parseMini s with
  | none => rw [hp] at h; exact absurd h (by simp)
  | some m =>
    rw [hp] at h
    cases m with
    | countAll a =>
      exact Or.inl ⟨a, hp, fun t => ⟨runMini (.countAll a) t,
        by simp [execString, hp], runMini_count_len a t⟩⟩
    | select cols cond lim =>
      cases lim with
      | none => exact absurd h (by simp)
      | some n =>
        have hn : n ≤ 10 := of_decide_eq_true h
        exact Or.inr ⟨cols, cond, n, hp, hn, fun t =>
          ⟨runMini (.select cols cond (some n)) t, by simp [execString, hp],
            le_trans (runMini_select_le cols cond n t) hn⟩⟩

theorem capSyntax_nameQuery (nm : List Char) (h : ∀ c ∈ nm, classC c = true) :
    capSyntax (nameQuery ⟨nm⟩) = true := by
  unfold capSyntax
  rw [parseMini_nameQuery nm (class_no_quote h)]
  rfl

/-! ### Single-read-statement predicate -/

/-- Boolean check that a statement string is a non-empty single read
statement: non-empty, begins with `SELECT `, and contains no statement
terminator `;`. -/
def isSingleRead (s : String) : Bool :=
  !s.data.isEmpty && startsWithL "SELECT ".data s.data && noChar ';' s.data

theorem isSingleRead_nameQuery (nm : List Char) (h : ∀ c ∈ nm, classC c = true) :
    isSingleRead (nameQuery ⟨nm⟩) = true := by
  have hdata : (nameQuery ⟨nm⟩).data
      = ("SELECT * FROM companies WHERE \"CompanyName\" LIKE \"%" : String).data
          ++ (nm ++ ("%\" LIMIT 5" : String).data) := by
    simp [nameQuery, String.data_append]
  have hsplit : ("SELECT * FROM companies WHERE \"CompanyName\" LIKE \"%" : String).data
      = "SELECT ".data ++ ("* FROM companies WHERE \"CompanyName\" LIKE \"%" : String).data := by
    decide
  unfold isSingleRead
  rw [hdata]
  have h1 : (("SELECT * FROM companies WHERE \"CompanyName\" LIKE \"%" : String).data
      ++ (nm ++ ("%\" LIMIT 5" : String).data)).isEmpty = false := by
    rw [hsplit, List.append_assoc]
    rfl
  have h2 : startsWithL "SELECT ".data
      (("SELECT * FROM companies WHERE \"CompanyName\" LIKE \"%" : String).data
        ++ (nm ++ ("%\" LIMIT 5" : String).data)) = true := by
    rw [hsplit, List.append_assoc]
    exact startsWithL_self _ _
  have h3 : noChar ';'
      (("SELECT * FROM companies WHERE \"CompanyName\" LIKE \"%" : String).data
        ++ (nm ++ ("%\" LIMIT 5" : String).data)) = true := by
    rw [noChar_append, noChar_append]
    have hnm : noChar ';' nm = true := noChar_of_class (by decide) h
    rw [hnm]
    decide
  rw [h1, h2, h3]
  rfl

/-! ### Substring containment facts for the presenter -/

theorem isPrefixOf_append_self (l r : List Char) : l.isPrefixOf (l ++ r) = true := by
  induction l with
  | nil => simp [List.isPrefixOf]
  | cons x xs ih => simp [List.isPrefixOf, ih]

theorem strContainsL_pre (v b : List Char) : strContainsL (v ++ b) v = true := by
  cases v with
  | nil =>
    cases b with
    | nil => rfl
    | cons x xs => simp [strContainsL, List.isPrefixOf]
  | cons x xs => simp [strContainsL, isPrefixOf_append_self]

theorem strContainsL_right (a : List Char) {b v : List Char}
    (h : strContainsL b v = true) : strContainsL (a ++ b) v = true := by
  induction a with
  | nil => exact h
  | cons x xs ih => simp [strContainsL, ih]

/-! ### The category branch always emits a capped single read statement -/

theorem categoryBranch_cap (q : List Char) : capSyntax (categoryBranch q) = true := by
  unfold categoryBranch
  split
  next term hterm =>
    unfold categoryTerm at hterm
    repeat' split at hterm
    all_goals first
      | (cases hterm; decide)
      | exact absurd hterm (by simp)
  next => decide

theorem categoryBranch_singleRead (q : List Char) :
    isSingleRead (categoryBranch q) = true := by
  unfold categoryBranch
  split
  next term hterm =>
    unfold categoryTerm at hterm
    repeat' split at hterm
    all_goals first
      | (cases hterm; decide)
      | exact absurd hterm (by simp)
  next => decide

/-! ## Claim theorems -/

/-- Totality of `LLMMCPServer.fallback_to_sql`: every branch emits a
non-empty single read statement. -/
theorem llm_fallback_singleRead (q : String) :
    isSingleRead (llm_fallback_to_sql q) = true := by
  simp only [llm_fallback_to_sql]
  repeat' split
  all_goals decide

/-- C4: for every input string, including the empty string and arbitrary
adversarial text, the rule-based resolver (`parse_nl_query`, and likewise
the fallback `LLMMCPServer.fallback_to_sql`) returns a non-empty query
consisting of a single read statement: every emitted template is non-empty,
begins with `SELECT `, and contains no statement terminator, the default
listing query being the final catch-all branch. -/
theorem C4_resolver_totality (q : String) :
    isSingleRead (parse_nl_query q) = true ∧ isSingleRead (llm_fallback_to_sql q) = true := by
  constructor
  · unfold parse_nl_query parseCore
    repeat' split
    all_goals first
      | decide
      | exact categoryBranch_singleRead _
      | (rename_i hnm; exact isSingleRead_nameQuery _ (extractL_class hnm))
  · exact llm_fallback_singleRead q

/-- C5: for every question, the query emitted by the rule-based resolver
(`parse_nl_query`, and likewise `WebMCPServer.fallback_to_sql`) either is
the count aggregate, whose execution returns exactly one row, or parses as
a select carrying an explicit `LIMIT` of at most 10, whose execution
returns at most 10 rows.  The resolver never reads a limit from the
question, so the cap holds for every input. -/
theorem C5_row_cap (q : String) :
    cappedOrCount (parse_nl_query q) ∧ cappedOrCount (web_fallback_to_sql q) := by
  constructor
  · unfold parse_nl_query parseCore
    repeat' split
    all_goals first
      | exact capSyntax_sound (by decide)
      | exact capSyntax_sound (categoryBranch_cap _)
      | (rename_i hnm; exact capSyntax_sound (capSyntax_nameQuery _ (extractL_class hnm)))
  · simp only [web_fallback_to_sql]
    repeat' split
    all_goals exact capSyntax_sound (by decide)

/-- C2 (counterexample): on the specification's own example input the
name-search branch emits its query by interpolating the extracted token
`foo` directly into the statement text — the executed call passes the text
alone, with no bound parameter — so the claim's "bound as a query
parameter, never interpolated into the query text" is false at this
input.  (The emitted statement is nevertheless only a `LIKE` filter,
because the extraction regex cannot capture a quote or terminator.) -/
theorem C2_counterexample :
    parse_nl_query "company named Foo\"; DROP TABLE companies;--"
      = "SELECT * FROM companies WHERE \"CompanyName\" LIKE \"%foo%\" LIMIT 5" ∧
    strContains (parse_nl_query "company named Foo\"; DROP TABLE companies;--") "foo" = true ∧
    extract_company_name "company named Foo\"; DROP TABLE companies;--" = some "foo" := by
  refine ⟨by decide, by decide, by decide⟩

/-- C2 (amended): whenever the name-search branch extracts a token, the
token consists only of `[a-zA-Z0-9\s]` characters — in particular it
contains no quote and no statement terminator — and the emitted statement,
though built by interpolation, parses as exactly one `SELECT *` carrying a
single substring (`LIKE`) filter on the `CompanyName` column with
`LIMIT 5`; it is a non-empty single read statement. -/
theorem C2_name_search_effect (q nm : String) (h : extract_company_name q = some nm) :
    noChar '"' nm.data = true ∧ noChar ';' nm.data = true ∧
    parseMini (nameQuery nm)
      = some (MiniSql.select [] (some (Cond.likeC "CompanyName" nm)) (some 5)) ∧
    isSingleRead (nameQuery nm) = true := by
  unfold extract_company_name at h
  cases hx : extractL (pyStripL (pyLowerL q.data)) with
  | none => rw [hx] at h; exact absurd h (by simp)
  | some nmL =>
    rw [hx] at h
    cases h
    have hcl : ∀ c ∈ nmL, classC c = true := extractL_class hx
    refine ⟨noChar_of_class (by decide) hcl, noChar_of_class (by decide) hcl,
      parseMini_nameQuery nmL (class_no_quote hcl), isSingleRead_nameQuery nmL hcl⟩

/-- C2 (witness): the amended theorem applied at the specification's
example injection attempt, whose extracted token is `foo`. -/
theorem C2_name_search_effect_witness :
    extract_company_name "company named Foo\"; DROP TABLE companies;--" = some "foo" ∧
    (noChar '"' ("foo" : String).data = true ∧ noChar ';' ("foo" : String).data = true ∧
      parseMini (nameQuery "foo")
        = some (MiniSql.select [] (some (Cond.likeC "CompanyName" "foo")) (some 5)) ∧
      isSingleRead (nameQuery "foo") = true) :=
  ⟨by decide, C2_name_search_effect "company named Foo\"; DROP TABLE companies;--" "foo" (by decide)⟩

/-- C6 (counterexample): for the question `list companies` the fallback
resolver of `llm_mcp_server.py` (cited by the claim alongside
`mcp_server.py` and `test_query.py`) emits a query whose second selected
column is spelled `" CompanyNumber"` — with a leading space — which is not
the column name `CompanyNumber` the claim requires, so "exactly the three
columns CompanyName, CompanyNumber and CompanyStatus" fails there. -/
theorem C6_counterexample :
    llm_fallback_to_sql "list companies"
      = "SELECT \"CompanyName\", \" CompanyNumber\", \"CompanyStatus\" FROM companies LIMIT 10" ∧
    parseMini (llm_fallback_to_sql "list companies")
      = some (MiniSql.select ["CompanyName", " CompanyNumber", "CompanyStatus"] none (some 10)) ∧
    (" CompanyNumber" : String) ≠ "CompanyNumber" := by
  refine ⟨by decide, by decide, by decide⟩

/-- C6 (amended): for the question `list companies`, `parse_nl_query` (via
its default branch — no rule matches, since the question contains neither
` all` nor the substring `company`) emits a query selecting exactly the
columns `CompanyName`, `CompanyNumber`, `CompanyStatus` with `LIMIT 10`,
and executing that query returns those three columns and at most 10 rows
while leaving the state unchanged; the `llm_mcp_server.py` fallback and the
`test_query.py` resolver emit the same shape but spell the second column
`" CompanyNumber"` with a leading space. -/
theorem C6_list_companies :
    parse_nl_query "list companies"
      = "SELECT \"CompanyName\", \"CompanyNumber\", \"CompanyStatus\" FROM companies LIMIT 10" ∧
    (∀ t : Table,
      (queryDbExec "SELECT \"CompanyName\", \"CompanyNumber\", \"CompanyStatus\" FROM companies LIMIT 10" ⟨some t⟩)
        = (.ok ⟨["CompanyName", "CompanyNumber", "CompanyStatus"],
            (t.rows.take 10).map (projectRow ["CompanyName", "CompanyNumber", "CompanyStatus"])⟩,
           ⟨some t⟩) ∧
      ((t.rows.take 10).map (projectRow ["CompanyName", "CompanyNumber", "CompanyStatus"])).length ≤ 10) ∧
    llm_fallback_to_sql "list companies"
      = "SELECT \"CompanyName\", \" CompanyNumber\", \"CompanyStatus\" FROM companies LIMIT 10" ∧
    parse_natural_language_query "list companies"
      = "SELECT \"CompanyName\", \" CompanyNumber\", \"CompanyStatus\" FROM companies LIMIT 10" := by
  refine ⟨by decide, fun t => ⟨rfl, ?_⟩, by decide, by decide⟩
  rw [List.length_map]
  exact List.length_take_le 10 t.rows

/-- C3 (counterexample): a model reply that is empty after normalisation
(here a bare code fence) is not treated as a failure: `llm_to_sql` returns
the empty string as the query instead of the rule-based resolver's result
for the same question, so "the overall resolution still returns a query
equal to the rule-based resolver's result" is false at this input; the
empty query then reaches the executor and its error is surfaced. -/
theorem C3_counterexample :
    llm_to_sql (.ok "```sql\n```") "list companies" = "" ∧
    llm_fallback_to_sql "list companies"
      = "SELECT \"CompanyName\", \" CompanyNumber\", \"CompanyStatus\" FROM companies LIMIT 10" ∧
    ("" : String)
      ≠ "SELECT \"CompanyName\", \" CompanyNumber\", \"CompanyStatus\" FROM companies LIMIT 10" := by
  refine ⟨by decide, by decide, by decide⟩

/-- C3 (amended): whenever the model call raises (network error, timeout,
API failure), `llm_to_sql` returns exactly the rule-based fallback's result
for the same question and no failure is surfaced, and that fallback result
is always a non-empty single read statement; a reply that does not raise is
returned as its normalised content unconditionally, even when that content
is empty. -/
theorem C3_fallback_equivalence :
    (∀ q, llm_to_sql (.error ()) q = llm_fallback_to_sql q) ∧
    (∀ q c, llm_to_sql (.ok c) q = normalize_llm_response c) ∧
    (∀ q, isSingleRead (llm_fallback_to_sql q) = true) := by
  exact ⟨fun q => rfl, fun q c => rfl, fun q => llm_fallback_singleRead q⟩

/-- C7 (counterexample): when the storage interaction fails,
`get_database_schema` returns a result — the degraded dictionary with table
name `companies`, empty column list and empty samples — rather than
failing with a surfaced error, so the claim that the describe operation
"fails ... rather than returning a result" is false at this input. -/
theorem C7_counterexample :
    get_database_schema (.error "unable to open database file")
      = { table := "companies", columns := [], sample_data := [] } := rfl

/-- C7 (amended): for every storage failure, `get_database_schema` catches
the exception and returns the degraded schema dictionary with empty columns
and empty sample data; no error is surfaced to its caller. -/
theorem C7_schema_degraded (e : String) :
    get_database_schema (.error e) = { table := "companies", columns := [], sample_data := [] } :=
  rfl

/-- C8: when the model credential configuration value is absent,
initialisation sets `llm_available` to false regardless of whether the
OpenAI package imported — the embedding is a total function, so no branch
raises — and every subsequent resolution takes the rule-based fallback
path, whatever the (never-consulted) model outcome would have been. -/
theorem C8_missing_credential :
    (∀ has_openai : Bool, llm_available has_openai none = false) ∧
    (∀ (has_openai : Bool) (resp : Except Unit String) (q : String),
      choose_sql (llm_available has_openai none) resp q = llm_fallback_to_sql q) := by
  constructor
  · intro h; cases h <;> rfl
  · intro h resp q; cases h <;> rfl

/-- Containment of the middle part of a three-part concatenation. -/
theorem strContains_append_mid (a v b : String) : strContains (a ++ v ++ b) v = true := by
  unfold strContains
  have h : (a ++ v ++ b).data = a.data ++ (v.data ++ b.data) := by
    simp [String.data_append, List.append_assoc]
  rw [h]
  exact strContainsL_right _ (strContainsL_pre _ _)

/-- C9 (counterexample): the form renderer of `ask_submit` interpolates the
cell value into the table fragment verbatim — a value containing markup
appears unescaped in the output and no entity escaping (`&lt;`) occurs —
so "each cell value is escaped before being placed in the HTML table
fragment" is false at this input. -/
theorem C9_counterexample :
    strContains (results_table_html none ["c"] [[("c", "<script>alert(1)</script>")]])
      "<script>alert(1)</script>" = true ∧
    strContains (results_table_html none ["c"] [[("c", "<script>alert(1)</script>")]])
      "&lt;" = false := by
  refine ⟨by decide, by decide⟩

/-- C9 (amended): the form renderer places every cell value verbatim
(unescaped) into the HTML table fragment — for any value `v` the rendered
fragment contains `v` as a literal substring — while a zero-row result does
produce the explicit `No results found.` indication. -/
theorem C9_render_behaviour :
    (∀ columns, results_table_html none columns []
      = "<div style=\"margin: 16px 0;\">No results found.</div>") ∧
    (∀ v : String, strContains (results_table_html none ["c"] [[("c", v)]]) v = true) := by
  refine ⟨fun columns => rfl, fun v => ?_⟩
  have h : results_table_html none ["c"] [[("c", v)]]
      = ("<table style=\"width:100%; border-collapse:collapse; margin-top:24px;\"><tr><th style=\"border:1px solid #ccc; padding:6px;\">c</th></tr><tr><td style=\"border:1px solid #ccc; padding:6px;\">"
          ++ v ++ "</td></tr></table>") := by
    have hstep : results_table_html none ["c"] [[("c", v)]]
        = "<table style=\"width:100%; border-collapse:collapse; margin-top:24px;\">"
            ++ "<tr>" ++ (("<th style=\"border:1px solid #ccc; padding:6px;\">" ++ "c" ++ "</th>") ++ "")
            ++ "</tr>"
            ++ (("<tr>" ++ (("<td style=\"border:1px solid #ccc; padding:6px;\">" ++ v ++ "</td>") ++ "") ++ "</tr>") ++ "")
            ++ "</table>" := rfl
    rw [hstep]
    apply String.ext
    simp [String.data_append, List.append_assoc]
  rw [h]
  exact strContains_append_mid _ v _

/-- C10: the rule-based resolvers lower-case the question before any rule
predicate or token extraction is applied, so resolution is invariant under
letter case: any two questions with the same lower-casing resolve to the
same query in `parse_nl_query`, `LLMMCPServer.fallback_to_sql` and
`parse_natural_language_query`. -/
theorem C10_case_invariance (q q' : String) (h : pyLower q = pyLower q') :
    parse_nl_query q = parse_nl_query q' ∧
    llm_fallback_to_sql q = llm_fallback_to_sql q' ∧
    parse_natural_language_query q = parse_natural_language_query q' := by
  have hd : pyLowerL q.data = pyLowerL q'.data := congrArg String.data h
  refine ⟨?_, ?_, ?_⟩
  · simp only [parse_nl_query, hd]
  · simp only [llm_fallback_to_sql, hd]
  · simp only [parse_natural_language_query, hd]

/-- C10 (witness): case invariance at the concrete pair `LIST Companies` /
`list companies`. -/
theorem C10_case_invariance_witness :
    pyLower "LIST Companies" = pyLower "list companies" ∧
    (parse_nl_query "LIST Companies" = parse_nl_query "list companies" ∧
      llm_fallback_to_sql "LIST Companies" = llm_fallback_to_sql "list companies" ∧
      parse_natural_language_query "LIST Companies"
        = parse_natural_language_query "list companies") :=
  ⟨by decide, C10_case_invariance "LIST Companies" "list companies" (by decide)⟩

/-- C1 (counterexample): the execute step passes a `DROP TABLE companies`
statement to the engine unchecked; the request does fail (reading
`cursor.description` of a non-`SELECT` raises, surfaced as a `Query
error`), but the drop has already been executed and committed, so the
stored table is mutated — "performs no mutation of the stored table" is
false at this input. -/
theorem C1_counterexample :
    (queryDbExec "DROP TABLE companies" dbSample).2 ≠ dbSample ∧
    (queryDbExec "DROP TABLE companies" dbSample).1
      = .error "Query error: 'NoneType' object is not iterable" ∧
    (queryDbExec "DROP TABLE companies" dbSample).2.companies = none := by
  refine ⟨by decide, rfl, rfl⟩

/-- C1 (amended): the execute step performs no verb-based rejection: every
statement whose leading verb is INSERT, UPDATE, DELETE or DROP is handed to
the engine and the request then fails with a surfaced `Query error` (the
result metadata of a non-`SELECT` statement is missing), but only as an
after-effect; for the DML verbs no durable mutation survives (the implicit
transaction is never committed), while a `DROP TABLE companies` on an
existing table durably removes it before the error is raised. -/
theorem C1_write_execution (sql : String) (db : Db)
    (h : isWriteVerb (firstWord sql) = true) :
    (∃ e, (queryDbExec sql db).1 = .error e) ∧
    (firstWord sql ≠ "drop" → (queryDbExec sql db).2 = db) ∧
    (firstWord sql = "drop" → dropTargetsCompanies sql = true → db.companies ≠ none →
      (queryDbExec sql db).2.companies = none) := by
  simp only [isWriteVerb, Bool.or_eq_true, beq_iff_eq] at h
  rcases h with ((hfw | hfw) | hfw) | hfw
  · 
    cases hdb : db.companies with
    | some t =>
      refine ⟨⟨"Query error: 'NoneType' object is not iterable", ?_⟩, fun _ => ?_, fun hd => ?_⟩
      · simp [queryDbExec, sqliteExec, hfw, hdb]
      · simp [queryDbExec, sqliteExec, hfw, hdb]
      · rw [hfw] at hd; exact absurd hd (by decide)
    | none =>
      refine ⟨⟨"Query error: no such table: companies", ?_⟩, fun _ => ?_, fun hd => ?_⟩
      · simp [queryDbExec, sqliteExec, hfw, hdb]
      · simp [queryDbExec, sqliteExec, hfw, hdb]
      · rw [hfw] at hd; exact absurd hd (by decide)
  · cases hdb : db.companies with
    | some t =>
      refine ⟨⟨"Query error: 'NoneType' object is not iterable", ?_⟩, fun _ => ?_, fun hd => ?_⟩
      · simp [queryDbExec, sqliteExec, hfw, hdb]
      · simp [queryDbExec, sqliteExec, hfw, hdb]
      · rw [hfw] at hd; exact absurd hd (by decide)
    | none =>
      refine ⟨⟨"Query error: no such table: companies", ?_⟩, fun _ => ?_, fun hd => ?_⟩
      · simp [queryDbExec, sqliteExec, hfw, hdb]
      · simp [queryDbExec, sqliteExec, hfw, hdb]
      · rw [hfw] at hd; exact absurd hd (by decide)
  · cases hdb : db.companies with
    | some t =>
      refine ⟨⟨"Query error: 'NoneType' object is not iterable", ?_⟩, fun _ => ?_, fun hd => ?_⟩
      · simp [queryDbExec, sqliteExec, hfw, hdb]
      · simp [queryDbExec, sqliteExec, hfw, hdb]
      · rw [hfw] at hd; exact absurd hd (by decide)
    | none =>
      refine ⟨⟨"Query error: no such table: companies", ?_⟩, fun _ => ?_, fun hd => ?_⟩
      · simp [queryDbExec, sqliteExec, hfw, hdb]
      · simp [queryDbExec, sqliteExec, hfw, hdb]
      · rw [hfw] at hd; exact absurd hd (by decide)
  · by_cases htgt : dropTargetsCompanies sql = true
    · cases hdb : db.companies with
      | some t =>
        refine ⟨⟨"Query error: 'NoneType' object is not iterable", ?_⟩, fun hnd => absurd hfw hnd,
          fun _ _ _ => ?_⟩
        · simp [queryDbExec, sqliteExec, hfw, htgt, hdb]
        · simp [queryDbExec, sqliteExec, hfw, htgt, hdb]
      | none =>
        refine ⟨⟨"Query error: no such table: companies", ?_⟩, fun hnd => absurd hfw hnd,
          fun _ _ hne => absurd rfl hne⟩
        simp [queryDbExec, sqliteExec, hfw, htgt, hdb]
    · have htgt' : dropTargetsCompanies sql = false := by simpa using htgt
      refine ⟨⟨"Query error: no such table", ?_⟩, fun hnd => absurd hfw hnd,
        fun _ ht _ => absurd ht htgt⟩
      simp [queryDbExec, sqliteExec, hfw, htgt']

/-- C1 (witness): the amended theorem applied at the statement
`DROP TABLE companies` against the sample database. -/
theorem C1_write_execution_witness :
    isWriteVerb (firstWord "DROP TABLE companies") = true ∧
    ((∃ e, (queryDbExec "DROP TABLE companies" dbSample).1 = .error e) ∧
     (firstWord "DROP TABLE companies" ≠ "drop" →
       (queryDbExec "DROP TABLE companies" dbSample).2 = dbSample) ∧
     (firstWord "DROP TABLE companies" = "drop" →
       dropTargetsCompanies "DROP TABLE companies" = true →
       dbSample.companies ≠ none →
       (queryDbExec "DROP TABLE companies" dbSample).2.companies = none)) :=
  ⟨by decide, C1_write_execution "DROP TABLE companies" dbSample (by decide)⟩
